import Mathlib

/-!
Verification of the xtb-stda orchestration pipeline
(`src/xtb_stda_python/__init__.py`).

The development shallowly embeds the Python module:

* the report parser `log2energy` becomes a pure function over lists of
  characters (lines obtained by splitting on the newline character, mirroring
  `stda_log.split("\n")`), with Python's `float(...)` on tokens drawn from
  the character class `[.0-9]` modelled exactly (empty tokens and tokens with
  two decimal points raise `ValueError`, modelled as `LogResult.error`);
* the two external binaries are an oracle (`Oracle`): opaque functions from
  the data the code actually hands them (molecule, parameter texts, flags,
  environment overrides) to an exit code, captured output and created files;
* `save_wavefunction`, `wavefunction_stda`, `mol2energy`, `Mol2EnergyClosure`
  and `mols2energy` are embedded both functionally (result values, with
  `Except` for raised exceptions) and, where a claim needs it, as
  workspace-state transformers tracking which files exist;
* `ProcessPoolExecutor.map` is modelled with an explicit completion
  schedule: workers finish in an arbitrary order and the gathering step
  reassembles results by input index, as the executor's contract states.
-/

namespace XtbStda

/-! ## Report parser (`log2energy`, source lines 128-141) -/

/-- ASCII whitespace as matched by Python's regex class `\s` and stripped by
`str.strip()` (the report text is ASCII). -/
def isPySpace (c : Char) : Bool :=
  c = ' ' || c = '\t' || c = '\n' || c = '\r' || c = '\x0b' || c = '\x0c'

/-- Characters of the regex character class `[.0-9]`. -/
def isTokChar (c : Char) : Bool := c.isDigit || c = '.'

/-- Model of `re.match(r"\s*1\s*([.0-9]*)", line)`: skip the maximal leading
whitespace run, require the literal character `1`, skip the maximal
whitespace run after it, and capture the maximal (possibly empty) run of
characters from `[.0-9]` as group 1.  The three runs cannot trade characters
(whitespace, `1`, and `[.0-9]` are pairwise disjoint at the decision points),
so the greedy backtracking regex is this deterministic scan. -/
def energyMatch (line : List Char) : Option (List Char) :=
  match line.dropWhile isPySpace with
  | '1' :: rest => some ((rest.dropWhile isPySpace).takeWhile isTokChar)
  | _ => none

/-- The section-heading substring tested with `in` on source line 135. -/
def headingChars : List Char :=
  "excitation energies, transition moments and TDA amplitudes".data

/-- Substring test via `needle.isPrefixOf`: Python's `needle in line`. -/
def containsSub (needle : List Char) : List Char → Bool
  | [] => needle.isEmpty
  | c :: rest => needle.isPrefixOf (c :: rest) || containsSub needle rest

/-- Line 135's test `"excitation energies, transition moments and TDA amplitudes" in line`. -/
def hasHeading (line : List Char) : Bool := containsSub headingChars line

/-- Line 137's test `line.strip() == ""`: the line is empty or whitespace-only. -/
def isBlankLine (line : List Char) : Bool := line.all isPySpace

/-- Numeric value of a digit string (most significant digit first). -/
def digitsVal (ds : List Char) : ℕ :=
  ds.foldl (fun a c => 10 * a + (c.toNat - 48)) 0

/-- Python's `float(tok)` for a token drawn from `[.0-9]*`, numerator/scale
form: it succeeds exactly when the token has at least one digit and at most
one decimal point (`""`, `"."` and `"3..4"` raise `ValueError`, giving `none`
here); on success the value is `n / 10 ^ e` for the returned pair `(n, e)`. -/
def parseTokN (tok : List Char) : Option (ℕ × ℕ) :=
  let intPart := tok.takeWhile (fun c => c ≠ '.')
  match tok.dropWhile (fun c => c ≠ '.') with
  | [] => if intPart.isEmpty then none else some (digitsVal intPart, 0)
  | _ :: frac =>
    if frac.any (fun c => c = '.') then none
    else if intPart.isEmpty && frac.isEmpty then none
    else some (digitsVal intPart * 10 ^ frac.length + digitsVal frac, frac.length)

/-- The rational number denoted by a decimal numerator/scale pair. -/
def decToRat (p : ℕ × ℕ) : ℚ := (p.1 : ℚ) / 10 ^ p.2

/-- Python's `float(tok)` for a token drawn from `[.0-9]*`, as a rational
(`none` models a raised `ValueError`). -/
def parseTok (tok : List Char) : Option ℚ := (parseTokN tok).map decToRat

/-- Outcome of `log2energy`: a parsed energy, falling off the end of the
function (Python returns `None`), or an uncaught `ValueError` raised by
`float(...)`. -/
inductive LogResult where
  | value : ℚ → LogResult
  | noValue : LogResult
  | error : LogResult
deriving DecidableEq

/-- The loop of `log2energy` over the already-split lines, carrying the
`right_part` flag.  Per line, in source order: the heading test may set the
flag, the blank test may clear it, and if the flag is set and the regex
matches, `float(group(1))` is returned (or raises). -/
def runLines : Bool → List (List Char) → LogResult
  | _, [] => .noValue
  | rp, line :: rest =>
    let rp1 := if hasHeading line then true else rp
    let rp2 := if isBlankLine line then false else rp1
    match energyMatch line with
    | some tok =>
      if rp2 then
        match parseTok tok with
        | some q => .value q
        | none => .error
      else runLines rp2 rest
    | none => runLines rp2 rest

/-- Model of `stda_log.split("\n")`. -/
def splitNl : List Char → List (List Char)
  | [] => [[]]
  | c :: rest =>
    if c = '\n' then [] :: splitNl rest
    else
      match splitNl rest with
      | [] => [[c]]
      | l :: ls => (c :: l) :: ls

/-- Function `log2energy` (source lines 128-141). -/
def log2energy (stda_log : String) : LogResult :=
  runLines false (splitNl stda_log.data)

/-- Token-level form of the `log2energy` loop: the group-1 token of the first
line that is inside the section and matches the regex, `none` when the loop
falls off the end.  `runLines` is this machine followed by `float` on the
returned token (`runLines_eq_interpTok` below). -/
def runLinesT : Bool → List (List Char) → Option (List Char)
  | _, [] => none
  | rp, line :: rest =>
    let rp1 := if hasHeading line then true else rp
    let rp2 := if isBlankLine line then false else rp1
    match energyMatch line with
    | some tok => if rp2 then some tok else runLinesT rp2 rest
    | none => runLinesT rp2 rest

/-- Interpretation of the token-level outcome: apply `float` to the returned
token, or report that no line was returned. -/
def interpTok : Option (List Char) → LogResult
  | none => .noValue
  | some tok =>
    match parseTok tok with
    | some q => .value q
    | none => .error

/-! ## External tools and environment (source lines 52-58, 93-105) -/

/-- The two thread-count environment variables as seen by a child process:
`none` means the variable was not overridden (the ambient value, whatever it
is, is inherited), `some s` means it was set to the string `s`. -/
structure EnvOverride where
  omp : Option String
  mkl : Option String
deriving DecidableEq

/-- Lines 52-55 / 98-101: `env = environ.copy()`, then both variables are set
to `str(nthreads)` when `nthreads is not None`, otherwise left untouched. -/
def envOf : Option ℕ → EnvOverride
  | none => ⟨none, none⟩
  | some n => ⟨some (toString n), some (toString n)⟩

/-- Line 93-95: `extra_flags = []`, plus `"-t"` when `triplet` is set. -/
def stdaFlags (triplet : Bool) : List String :=
  if triplet then ["-t"] else []

/-- Observable outcome of one external process run: its exit status and the
text it wrote to the standard streams. -/
structure ToolOutcome where
  exitCode : ℤ
  stdoutText : String
  stderrText : String

/-- The two external binaries, as opaque deterministic functions of exactly
the data the code hands them: `xtb4stda` sees the molecule, the two parameter
texts and the environment override (its exit status `xtbRun`, the `wfn.xtb`
content it writes on success `xtbWfn`, and the other files it creates in the
working directory `xtbFiles`); `stda` sees the staged wavefunction content,
the extra command-line flags and the environment override. -/
structure Oracle (Mol : Type) where
  xtbRun : Mol → String → String → EnvOverride → ToolOutcome
  xtbWfn : Mol → String → String → EnvOverride → String
  xtbFiles : Mol → String → String → EnvOverride → List String
  stdaRun : String → List String → EnvOverride → ToolOutcome
  stdaFiles : String → List String → EnvOverride → List String

/-- Model of `subprocess.CalledProcessError` as `run(..., check=True)` raises it: the
exit status, and the captured stderr — `none` when the run did not use
`capture_output=True` (the attribute is `None` in that case). -/
structure CalledProcessErr where
  returncode : ℤ
  stderr : Option String
deriving DecidableEq

/-! ## Functional pipeline (result values; source lines 30-125, 143-194) -/

variable {Mol : Type}

/-- Function `save_wavefunction` (lines 30-75), functional view: the content that ends
up at `outpath` on success, or the `CalledProcessError` raised by
`run(..., check=True)`.  The stage-1 `run` call (line 57) does not pass
`capture_output`, so a raised error has `stderr = None`. -/
def save_wavefunction (o : Oracle Mol) (mol : Mol) (px pv : String)
    (nthreads : Option ℕ) : Except CalledProcessErr String :=
  let env := envOf nthreads
  let r := o.xtbRun mol px pv env
  if r.exitCode ≠ 0 then .error ⟨r.exitCode, none⟩
  else .ok (o.xtbWfn mol px pv env)

/-- Function `wavefunction_stda` (lines 77-125), functional view: the captured stdout
text on success, or the `CalledProcessError` raised by `run(..., check=True,
capture_output=True, text=True)` (line 104), which carries the captured
stderr. -/
def wavefunction_stda (o : Oracle Mol) (wfn : String) (triplet : Bool)
    (nthreads : Option ℕ) : Except CalledProcessErr String :=
  let env := envOf nthreads
  let r := o.stdaRun wfn (stdaFlags triplet) env
  if r.exitCode ≠ 0 then .error ⟨r.exitCode, some r.stderrText⟩
  else .ok r.stdoutText

/-- An exception escaping `mol2energy`: a `CalledProcessError` from either
stage, or the `ValueError` raised by `float(...)` inside `log2energy`. -/
inductive PipeErr where
  | tool : CalledProcessErr → PipeErr
  | valueError : PipeErr
deriving DecidableEq

/-- Function `mol2energy` (lines 143-162): stage-1 with the given `nthreads`, then
stage-2 — called on line 158 with `triplet` only, so its `nthreads` is the
default `None` — then `log2energy` on the captured log.  Returns the parsed
energy, `none` when `log2energy` falls off the end (Python `None`). -/
def mol2energy (o : Oracle Mol) (mol : Mol) (px pv : String)
    (nthreads : Option ℕ) (triplet : Bool) : Except PipeErr (Option ℚ) :=
  match save_wavefunction o mol px pv nthreads with
  | .error e => .error (.tool e)
  | .ok wfn =>
    match wavefunction_stda o wfn triplet none with
    | .error e => .error (.tool e)
    | .ok stda_log =>
      match log2energy stda_log with
      | .value q => .ok (some q)
      | .noValue => .ok none
      | .error => .error .valueError

/-- Class `Mol2EnergyClosure` (lines 164-177): the configuration a worker carries. -/
structure Mol2EnergyClosure where
  param_x_text : String
  param_v_text : String
  triplet : Bool

/-- Method `Mol2EnergyClosure.__call__` (lines 175-177): `mol2energy` with the
stored configuration and `nthreads=1`. -/
def Mol2EnergyClosure.call (c : Mol2EnergyClosure) (o : Oracle Mol) (mol : Mol) :
    Except PipeErr (Option ℚ) :=
  mol2energy o mol c.param_x_text c.param_v_text (some 1) c.triplet

/-! ## Batch driver (`mols2energy`, lines 179-194)

`ProcessPoolExecutor.map` submits one task per input, workers complete the
tasks in an arbitrary order, and the returned iterator yields each task's
result in input order.  The schedule `sched` lists task indices in completion
order; `poolRun` is the bag of completed `(index, result)` pairs in that
order, and `gatherResults` re-reads them by input index, which is what
`list(pool.map(closure, mols))` observes. -/

/-- Completed `(index, result)` pairs, in worker completion order. -/
def poolRun (sched : List ℕ) (f : α → β) (xs : List α) : List (ℕ × β) :=
  sched.filterMap (fun i => (xs.get? i).map (fun x => (i, f x)))

/-- Collect the result of each input index from the completed pairs. -/
def gatherResults (n : ℕ) (completed : List (ℕ × β)) : List (Option β) :=
  (List.range n).map (fun i => completed.lookup i)

/-- Function `mols2energy` (lines 179-194): build one shared closure from the
parameter texts and the triplet flag, run it over the molecules on the
process pool under completion schedule `sched`, and collect the results in
input order.  `some r` in a slot means that molecule's task completed with
result `r`. -/
def mols2energy (sched : List ℕ) (o : Oracle Mol) (mols : List Mol)
    (px pv : String) (triplet : Bool) : List (Option (Except PipeErr (Option ℚ))) :=
  let closure : Mol2EnergyClosure := ⟨px, pv, triplet⟩
  gatherResults mols.length (poolRun sched (closure.call o) mols)

/-! ## Environment-override trace (for the oversubscription claim) -/

/-- One external-process invocation, with the thread-count override its
child environment received. -/
inductive ToolEv where
  | xtbCall : EnvOverride → ToolEv
  | stdaCall : EnvOverride → ToolEv
deriving DecidableEq

/-- The environment override carried by an invocation event. -/
def ToolEv.env : ToolEv → EnvOverride
  | .xtbCall e => e
  | .stdaCall e => e

/-- The external-process invocations performed by one `mol2energy` call, in
order: the stage-1 `run` always happens; the stage-2 `run` happens only if
stage-1 did not raise, and (line 158) receives no `nthreads`. -/
def mol2energyTrace (o : Oracle Mol) (mol : Mol) (px pv : String)
    (nthreads : Option ℕ) (triplet : Bool) : List ToolEv :=
  match save_wavefunction o mol px pv nthreads with
  | .error _ => [.xtbCall (envOf nthreads)]
  | .ok _ => [.xtbCall (envOf nthreads), .stdaCall (envOf none)]

/-- All external-process invocations performed by a `mols2energy` batch: each
worker runs the closure, i.e. `mol2energy` with `nthreads=1`, on its
molecule.  (Workers interleave; the property of interest is per-event, so the
concatenation order is immaterial.) -/
def mols2energyTrace (o : Oracle Mol) (mols : List Mol) (px pv : String)
    (triplet : Bool) : List ToolEv :=
  (mols.map (fun m => mol2energyTrace o m px pv (some 1) triplet)).flatten

/-! ## Workspace-state models of the stage runners (lines 30-75, 77-125) -/

/-- List `possible_files_xtb` (lines 14-16). -/
def possible_files_xtb : List String :=
  ["charges", "charges2", "charges3", "wbo", "wbo3", "wbofit",
   "spin", "spin3", "dipole", "dipole2", "energy", "pcharge", "fod",
   "hfc3"]

/-- List `possible_files_stda` (lines 18-26). -/
def possible_files_stda : List String :=
  ["TmPvEcInFo", "qia", "zmint", "xlint", "beta_HRS",
   "tday.dat", "tdaz.dat", "qaa", "1st_sf_MO.molden",
   "NTOvar", "pij", "molden.input", ".REF", "NTOspin",
   "~/.param", "NTOs.html", "yvint", "NTOat", "bmat",
   "tdax.dat", "zlint", "qii", "qab", "molden.molden",
   "xmint", "zvint", "beta_tensor", "qij", "tda.dat",
   "xvint", "NTOao", ".STDA", "tda.exc", "ylint", "ymint",
   ".OUT", "amb", "wavelength", "wfn.xtb", "fnorm", "sint",
   "2PA-abs", ".ref", "apbmat", "pia", "jmol.spt"]

/-- Create a file in the workspace (overwriting keeps one directory entry). -/
def addFile (f : String) (ws : List String) : List String :=
  if f ∈ ws then ws else f :: ws

/-- Create several files in the workspace. -/
def addFiles (fs : List String) (ws : List String) : List String :=
  fs.foldl (fun w f => addFile f w) ws

/-- The conditional cleanup loop (lines 65-68 / 117-120): for each name on
the allow-list, `if isfile(path): remove(path)`. -/
def cleanupLoop (names : List String) (ws : List String) : List String :=
  names.foldl (fun w f => if f ∈ w then w.erase f else w) ws

/-- Failures of the workspace-state runs: a tool failure, `os.remove`,
`os.replace` or `shutil.copy` on a missing file (`FileNotFoundError`), or
`os.rmdir` on a non-empty directory (`OSError`, carrying the leftover
entries). -/
inductive WsErr where
  | tool : CalledProcessErr → WsErr
  | fileMissing : String → WsErr
  | dirNotEmpty : List String → WsErr

/-- Model of `os.remove` / `os.replace(src, ...)`: the named file must exist. -/
def removeFile (f : String) (ws : List String) : Except WsErr (List String) :=
  if f ∈ ws then .ok (ws.erase f) else .error (.fileMissing f)

/-- Post-state of a `save_wavefunction` run: whether the temporary workspace
directory still exists, the files left inside it, and whether a file exists
at `outpath`. -/
structure WsState where
  wsExists : Bool
  files : List String
  outExists : Bool

/-- Function `save_wavefunction` (lines 30-75), workspace-state view.  `outBefore`
says whether a file already existed at `outpath`.  Steps, in source order:
`mkdir` the random directory; write `param_x.xtb`, `param_v.xtb`, `mol.xyz`;
run `xtb4stda` (on success it writes `wfn.xtb` and possibly more files);
`replace` moves `wfn.xtb` onto `outpath`, overwriting; the conditional
cleanup loop over `possible_files_xtb`; unconditional `remove` of the three
staged inputs; `rmdir`, which fails if anything is left. -/
def save_wavefunctionWS (o : Oracle Mol) (mol : Mol) (px pv : String)
    (nthreads : Option ℕ) (outBefore : Bool) : Except WsErr Unit × WsState :=
  let env := envOf nthreads
  let ws0 := addFiles ["param_x.xtb", "param_v.xtb", "mol.xyz"] []
  let r := o.xtbRun mol px pv env
  if r.exitCode ≠ 0 then
    (.error (.tool ⟨r.exitCode, none⟩), ⟨true, ws0, outBefore⟩)
  else
    let ws1 := addFiles (o.xtbFiles mol px pv env) (addFile "wfn.xtb" ws0)
    match removeFile "wfn.xtb" ws1 with
    | .error e => (.error e, ⟨true, ws1, outBefore⟩)
    | .ok ws2 =>
      let ws3 := cleanupLoop possible_files_xtb ws2
      match removeFile "mol.xyz" ws3 with
      | .error e => (.error e, ⟨true, ws3, true⟩)
      | .ok ws4 =>
        match removeFile "param_x.xtb" ws4 with
        | .error e => (.error e, ⟨true, ws4, true⟩)
        | .ok ws5 =>
          match removeFile "param_v.xtb" ws5 with
          | .error e => (.error e, ⟨true, ws5, true⟩)
          | .ok ws6 =>
            if ws6 = [] then (.ok (), ⟨false, [], true⟩)
            else (.error (.dirNotEmpty ws6), ⟨true, ws6, true⟩)

/-- Post-state of a `wavefunction_stda` run: whether the workspace directory
still exists, the files left inside it, and whether the optional secondary
artifact was copied to `dat_path`. -/
structure StdaWsState where
  wsExists : Bool
  files : List String
  datCopied : Bool

/-- Function `wavefunction_stda` (lines 77-125), workspace-state view.  `datPath`
says whether a `dat_path` was supplied.  Steps, in source order: `mkdir`;
`copy` the wavefunction in as `wfn.xtb`; run `stda` (on success it creates
some files); if `dat_path` was given, `copy` out `tda.dat` (which must then
exist); unconditional `remove` of the copied `wfn.xtb`; the conditional
cleanup loop over `possible_files_stda`; `rmdir`. -/
def wavefunction_stdaWS (o : Oracle Mol) (wfn : String) (datPath : Bool)
    (triplet : Bool) (nthreads : Option ℕ) : Except WsErr String × StdaWsState :=
  let env := envOf nthreads
  let ws0 := addFile "wfn.xtb" []
  let r := o.stdaRun wfn (stdaFlags triplet) env
  if r.exitCode ≠ 0 then
    (.error (.tool ⟨r.exitCode, some r.stderrText⟩), ⟨true, ws0, false⟩)
  else
    let ws1 := addFiles (o.stdaFiles wfn (stdaFlags triplet) env) ws0
    if datPath ∧ "tda.dat" ∉ ws1 then
      (.error (.fileMissing "tda.dat"), ⟨true, ws1, false⟩)
    else
      match removeFile "wfn.xtb" ws1 with
      | .error e => (.error e, ⟨true, ws1, datPath⟩)
      | .ok ws2 =>
        let ws3 := cleanupLoop possible_files_stda ws2
        if ws3 = [] then (.ok r.stdoutText, ⟨false, [], datPath⟩)
        else (.error (.dirNotEmpty ws3), ⟨true, ws3, datPath⟩)

/-! ## Temporary wavefunction file of `mol2energy` (lines 152-159) -/

/-- An exception escaping `mol2energy` in the workspace-state model: any of
the raised errors of either stage, or the `ValueError` raised by
`float(...)` inside `log2energy`. -/
inductive PipeWsErr where
  | ws : WsErr → PipeWsErr
  | valueError : PipeWsErr

/-- Function `mol2energy` (lines 143-162) over the workspace-state stage
models, with the fate of its uniquely-named temporary wavefunction file made
explicit in the second component.  The temporary name is fresh (80 random
letters), so nothing exists at it beforehand (`outBefore := false`); the
file comes into existence exactly when stage-1's `replace` (line 62) runs —
which is before stage-1's own cleanup and `rmdir`, so a stage-1 exception
raised after the `replace` already leaves it behind.  On the normal stage-1
path, stage-2 runs (line 158: `triplet` only, no `dat_path`, no `nthreads`)
on the moved wavefunction content; only when it returns normally is
line 159's `remove(temp_file_name)` reached, and `log2energy` runs after the
removal.  Any exception propagates with the file in whatever state it was —
no cleanup runs on failure. -/
def mol2energyTempWS (o : Oracle Mol) (mol : Mol) (px pv : String)
    (nthreads : Option ℕ) (triplet : Bool) :
    Except PipeWsErr (Option ℚ) × Bool :=
  match save_wavefunctionWS o mol px pv nthreads false with
  | (.error e, st) => (.error (.ws e), st.outExists)
  | (.ok _, _) =>
    match wavefunction_stdaWS o (o.xtbWfn mol px pv (envOf nthreads))
        false triplet none with
    | (.error e, _) => (.error (.ws e), true)
    | (.ok stda_log, _) =>
      (match log2energy stda_log with
       | .value q => .ok (some q)
       | .noValue => .ok none
       | .error => .error .valueError, false)

/-! ## Concrete fixtures -/

/-- The literal report text of spec §8 ("Parser correctness"). -/
def reportSpec : String :=
  "some header\n\nexcitation energies, transition moments and TDA amplitudes\nstate    eV      nm       fosc\n   1    3.456   359.0    0.1234\n\nother section"

/-- A report whose in-section data row starts with `10`, not `1 `. -/
def reportTen : String :=
  "excitation energies, transition moments and TDA amplitudes\n10 3.456"

/-- A report whose in-section data row has a two-decimal-point token. -/
def reportTwoDots : String :=
  "excitation energies, transition moments and TDA amplitudes\n1 3..4"

/-- A report whose in-section data row is the bare character `1`. -/
def reportBareOne : String :=
  "excitation energies, transition moments and TDA amplitudes\n1"

/-- A report whose in-section data row is `1` followed only by whitespace. -/
def reportOneSpaces : String :=
  "excitation energies, transition moments and TDA amplitudes\n1   "

/-- A report without the section heading anywhere. -/
def reportNoHeading : String := "hello\nworld 1 2.5"

/-- A report that enters the section but has no matching row. -/
def reportNoRow : String :=
  "excitation energies, transition moments and TDA amplitudes\nabc def"

/-- A report with a blank line between the heading and a stray `1 9.999`. -/
def reportStray : String :=
  "excitation energies, transition moments and TDA amplitudes\n\n1 9.999"

/-- An oracle on which everything succeeds: `xtb4stda` exits 0, writes the
wavefunction and one allow-listed side file; `stda` exits 0, prints the
spec §8 report and creates only allow-listed files. -/
def oracleOk : Oracle Unit where
  xtbRun := fun _ _ _ _ => ⟨0, "", "xtb stderr"⟩
  xtbWfn := fun _ _ _ _ => "WFNDATA"
  xtbFiles := fun _ _ _ _ => ["charges", "wbo"]
  stdaRun := fun _ _ _ => ⟨0, reportSpec, "stda stderr"⟩
  stdaFiles := fun _ _ _ => ["tda.dat", "sint"]

/-- An oracle on which stage-1 succeeds and stage-2 exits with status 1. -/
def oracleStdaFail : Oracle Unit where
  xtbRun := fun _ _ _ _ => ⟨0, "", ""⟩
  xtbWfn := fun _ _ _ _ => "WFNDATA"
  xtbFiles := fun _ _ _ _ => ["charges"]
  stdaRun := fun _ _ _ => ⟨1, "", "boom"⟩
  stdaFiles := fun _ _ _ => []

/-- An oracle on which stage-1 exits with status 1, writing "boom" to its
(uncaptured) stderr. -/
def oracleXtbFail : Oracle Unit where
  xtbRun := fun _ _ _ _ => ⟨1, "", "boom"⟩
  xtbWfn := fun _ _ _ _ => ""
  xtbFiles := fun _ _ _ _ => []
  stdaRun := fun _ _ _ => ⟨0, reportSpec, ""⟩
  stdaFiles := fun _ _ _ => []

/-- An oracle whose `xtb4stda` leaves a file that is on no allow-list. -/
def oracleStray : Oracle Unit where
  xtbRun := fun _ _ _ _ => ⟨0, "", ""⟩
  xtbWfn := fun _ _ _ _ => "WFNDATA"
  xtbFiles := fun _ _ _ _ => ["stray.out"]
  stdaRun := fun _ _ _ => ⟨0, reportSpec, ""⟩
  stdaFiles := fun _ _ _ => []

/-! ## Parser lemmas -/

theorem runLines_eq_interpTok (rp : Bool) (ls : List (List Char)) :
    runLines rp ls = interpTok (runLinesT rp ls) := by
  induction ls generalizing rp with
  | nil => rfl
  | cons line rest ih =>
    simp only [runLines, runLinesT]
    rcases h : energyMatch line with _ | tok
    · exact ih _
    · by_cases hrp : (if isBlankLine line then false
        else if hasHeading line then true else rp) = true
      · simp only [hrp, if_true]
        rfl
      · simp only [Bool.not_eq_true] at hrp
        simp only [hrp, if_false]
        exact ih _

theorem energyMatch_of_blank {l : List Char} (h : isBlankLine l = true) :
    energyMatch l = none := by
  have hd : l.dropWhile isPySpace = [] := by
    rw [List.dropWhile_eq_nil_iff]
    intro x hx
    exact List.all_eq_true.mp h x hx
  simp [energyMatch, hd]

theorem runLinesT_of_noHeading {ls : List (List Char)}
    (h : ∀ l ∈ ls, hasHeading l = false) : runLinesT false ls = none := by
  induction ls with
  | nil => rfl
  | cons line rest ih =>
    have hl : hasHeading line = false := h line (List.mem_cons_self _ _)
    have ih' := ih fun l hl' => h l (List.mem_cons_of_mem _ hl')
    simp only [runLinesT, hl, Bool.false_eq_true, if_false, ite_self]
    rcases hm : energyMatch line with _ | tok
    · simp only [hm]
      exact ih'
    · simp only [hm, Bool.false_eq_true, if_false]
      exact ih'

theorem runLinesT_of_noMatch {ls : List (List Char)} (rp : Bool)
    (h : ∀ l ∈ ls, energyMatch l = none) : runLinesT rp ls = none := by
  induction ls generalizing rp with
  | nil => rfl
  | cons line rest ih =>
    have hl : energyMatch line = none := h line (List.mem_cons_self _ _)
    simp only [runLinesT, hl]
    exact ih _ fun l hl' => h l (List.mem_cons_of_mem _ hl')

theorem runLinesT_section_exit (rp : Bool) (pre post : List (List Char))
    (blank : List Char) (hb : isBlankLine blank = true)
    (hp : ∀ l ∈ post, hasHeading l = false) :
    runLinesT rp (pre ++ blank :: post) = runLinesT rp pre := by
  induction pre generalizing rp with
  | nil =>
    simp only [List.nil_append, runLinesT, hb, if_true,
      energyMatch_of_blank hb]
    exact runLinesT_of_noHeading hp
  | cons line rest ih =>
    simp only [List.cons_append, runLinesT]
    rcases hm : energyMatch line with _ | tok
    · exact ih _
    · by_cases hrp : (if isBlankLine line then false
        else if hasHeading line then true else rp) = true
      · simp only [hrp, if_true]
      · simp only [Bool.not_eq_true] at hrp
        simp only [hrp, if_false]
        exact ih _

theorem dropWhile_ws_append {w : List Char} (r : List Char)
    (hw : ∀ c ∈ w, isPySpace c = true) :
    (w ++ '1' :: r).dropWhile isPySpace = '1' :: r := by
  induction w with
  | nil => simp [List.dropWhile_cons, isPySpace]
  | cons c cs ih =>
    have hc : isPySpace c = true := hw c (List.mem_cons_self _ _)
    simp only [List.cons_append, List.dropWhile_cons, hc, if_true]
    exact ih fun x hx => hw x (List.mem_cons_of_mem _ hx)

/-! ## Claim theorems: report parser -/

/-- Claim C6: on the literal report text of spec §8, `log2energy` returns
exactly 3.456 (the first matching line inside the section). -/
theorem parse_spec_report : log2energy reportSpec = .value (3.456 : ℚ) := by
  show runLines false (splitNl reportSpec.data) = _
  rw [runLines_eq_interpTok]
  have h1 : runLinesT false (splitNl reportSpec.data)
      = some ['3', '.', '4', '5', '6'] := by decide
  rw [h1]
  have h2 : parseTokN ['3', '.', '4', '5', '6'] = some (3456, 3) := by decide
  simp only [interpTok, parseTok, h2, Option.map_some']
  have h3 : decToRat (3456, 3) = (3.456 : ℚ) := by
    norm_num [decToRat]
  rw [h3]

/-- Claim C10: a report whose in-section row is the bare character `1`
(or `1` followed only by whitespace) makes `log2energy` raise `ValueError`:
the regex matches with an empty group-1 token and `float("")` raises. -/
theorem bare_one_raises :
    log2energy reportBareOne = .error ∧ log2energy reportOneSpaces = .error := by
  constructor <;> decide

/-- Claim C4, counterexample: the line `"10 3.456"` does match the code's
pattern `\s*1\s*([.0-9]*)` (the whitespace after `1` is optional and the
token is captured greedily), with group-1 token `"0"`, so in-section it
yields 0.0 rather than being skipped; and a token with two decimal points
also matches, making `float` raise rather than the line being skipped. -/
theorem row_pattern_counterexample :
    log2energy reportTen = .value 0 ∧ log2energy reportTwoDots = .error := by
  constructor
  · show runLines false (splitNl reportTen.data) = _
    rw [runLines_eq_interpTok]
    have h1 : runLinesT false (splitNl reportTen.data) = some ['0'] := by decide
    rw [h1]
    have h2 : parseTokN ['0'] = some (0, 0) := by decide
    simp only [interpTok, parseTok, h2, Option.map_some']
    have h3 : decToRat (0, 0) = (0 : ℚ) := by norm_num [decToRat]
    rw [h3]
  · decide

/-- Claim C4, amended: a line matches the row pattern iff it consists of
optional leading whitespace followed by the literal character `1`; the
captured token is then the maximal (possibly empty) run of digits and
decimal points after optional — not required — whitespace.  (Whether the
token then converts or raises is the business of `float`, as in C10.) -/
theorem row_pattern_amended (line tok : List Char) :
    energyMatch line = some tok ↔
      ∃ w r, line = w ++ '1' :: r ∧ (∀ c ∈ w, isPySpace c = true) ∧
        tok = (r.dropWhile isPySpace).takeWhile isTokChar := by
  constructor
  · intro h
    unfold energyMatch at h
    split at h
    next rest heq =>
      refine ⟨line.takeWhile isPySpace, rest, ?_,
        fun c hc => List.mem_takeWhile_imp hc, ?_⟩
      · conv_lhs => rw [← List.takeWhile_append_dropWhile (p := isPySpace) (l := line)]
        rw [heq]
      · exact (Option.some.injEq _ _ ▸ h).symm
    next => exact absurd h (by simp)
  · rintro ⟨w, r, rfl, hw, rfl⟩
    unfold energyMatch
    rw [dropWhile_ws_append r hw]
    rfl

/-- Claim C5: the parser is the two-state machine described — heading line
enters, blank line leaves, values only come from lines seen inside.  In any
report of the form `pre ++ blank-line ++ post` where no line of `post`
contains the heading, everything after the blank line is ignored: the run
equals the run on `pre` alone, so a stray `"1 9.999"` after the blank line
is never returned. -/
theorem section_exit_only_inside (rp : Bool) (pre post : List (List Char))
    (blank : List Char) (hb : isBlankLine blank = true)
    (hp : ∀ l ∈ post, hasHeading l = false) :
    runLines rp (pre ++ blank :: post) = runLines rp pre := by
  rw [runLines_eq_interpTok, runLines_eq_interpTok,
    runLinesT_section_exit rp pre post blank hb hp]

/-- Witness for C5: heading line, then a blank line, then a stray `1 9.999`;
the run equals the run on the heading line alone (which finds nothing). -/
theorem section_exit_only_inside_witness :
    isBlankLine [] = true ∧
    (∀ l ∈ ["1 9.999".data], hasHeading l = false) ∧
    runLines false
        (["excitation energies, transition moments and TDA amplitudes".data]
          ++ [] :: ["1 9.999".data])
      = runLines false
          ["excitation energies, transition moments and TDA amplitudes".data] :=
  ⟨by decide, by decide,
    section_exit_only_inside false _ _ _ (by decide) (by decide)⟩

/-- Claim C7: when the heading never occurs, or no line matches the row
pattern at all, `log2energy` returns Python `None` — an outcome distinct
from the number zero and from a raised error. -/
theorem parser_absence :
    (∀ s : String, (∀ l ∈ splitNl s.data, hasHeading l = false) →
      log2energy s = .noValue) ∧
    (∀ s : String, (∀ l ∈ splitNl s.data, energyMatch l = none) →
      log2energy s = .noValue) ∧
    (LogResult.noValue ≠ .value 0 ∧ LogResult.noValue ≠ .error) := by
  refine ⟨fun s h => ?_, fun s h => ?_, by simp, by simp⟩
  · show runLines false (splitNl s.data) = _
    rw [runLines_eq_interpTok, runLinesT_of_noHeading h]
    rfl
  · show runLines false (splitNl s.data) = _
    rw [runLines_eq_interpTok, runLinesT_of_noMatch false h]
    rfl

/-- Witness for C7: a report without the heading, and a report that enters
the section but has no matching row, both yield `noValue`. -/
theorem parser_absence_witness :
    ((∀ l ∈ splitNl reportNoHeading.data, hasHeading l = false) ∧
      log2energy reportNoHeading = .noValue) ∧
    ((∀ l ∈ splitNl reportNoRow.data, energyMatch l = none) ∧
      log2energy reportNoRow = .noValue) :=
  ⟨⟨by decide, parser_absence.1 reportNoHeading (by decide)⟩,
   ⟨by decide, parser_absence.2.1 reportNoRow (by decide)⟩⟩

/-! ## Batch driver lemmas and claims -/

theorem lookup_poolRun (sched : List ℕ) (f : α → β) (xs : List α) (i : ℕ)
    (h : i < xs.length) (hmem : i ∈ sched) :
    (poolRun sched f xs).lookup i = some (f xs[i]) := by
  induction sched with
  | nil => exact absurd hmem (List.not_mem_nil i)
  | cons j rest ih =>
    by_cases hj : j < xs.length
    · have hget : xs.get? j = some xs[j] := List.get?_eq_get hj
      simp only [poolRun, List.filterMap_cons, hget, Option.map_some']
      by_cases hij : i = j
      · subst hij
        simp [List.lookup]
      · have hmem' : i ∈ rest := by
          rcases List.mem_cons.mp hmem with h' | h'
          · exact absurd h' hij
          · exact h'
        have hbeq : (i == j) = false := beq_false_of_ne hij
        simp only [List.lookup, hbeq]
        exact ih hmem'
    · have hget : xs.get? j = none := List.get?_eq_none.mpr (le_of_not_lt hj)
      simp only [poolRun, List.filterMap_cons, hget, Option.map_none']
      have hmem' : i ∈ rest := by
        rcases List.mem_cons.mp hmem with h' | h'
        · exact absurd (h' ▸ h) hj
        · exact h'
      exact ih hmem'

/-- Claim C1: whenever every task index eventually completes (`sched` covers
every index, in any order — worker scheduling and completion order are
arbitrary), the batch driver returns one slot per input molecule, and the
i-th slot holds exactly the result of the single-item pipeline — `mol2energy`
with the shared parameter texts, the shared triplet flag and `nthreads = 1` —
on the i-th molecule. -/
theorem batch_eq_sequential_map {Mol : Type} (sched : List ℕ) (o : Oracle Mol)
    (mols : List Mol) (px pv : String) (t : Bool)
    (hsched : ∀ i, i < mols.length → i ∈ sched) :
    mols2energy sched o mols px pv t
      = mols.map (fun m => some (mol2energy o m px pv (some 1) t)) := by
  unfold mols2energy gatherResults
  apply List.ext_getElem
  · simp
  · intro i h1 h2
    simp only [List.getElem_map, List.getElem_range] at h1 ⊢
    have hlen : i < mols.length := by simpa using h1
    rw [lookup_poolRun sched _ mols i hlen (hsched i hlen)]
    rfl

/-- Witness for C1: two molecules, completion order reversed (the second
worker finishes first); the batch still equals the sequential map. -/
theorem batch_eq_sequential_map_witness :
    (∀ i, i < ([(), ()] : List Unit).length → i ∈ [1, 0]) ∧
    mols2energy [1, 0] oracleOk [(), ()] "px" "pv" false
      = [(), ()].map (fun m => some (mol2energy oracleOk m "px" "pv" (some 1) false)) :=
  ⟨by decide, batch_eq_sequential_map [1, 0] oracleOk [(), ()] "px" "pv" false (by decide)⟩

/-! ## Temporary wavefunction file (claim C2) -/

theorem save_wavefunctionWS_ok_out {Mol : Type} (o : Oracle Mol) (mol : Mol)
    (px pv : String) (nth : Option ℕ) (ob : Bool)
    (h : (save_wavefunctionWS o mol px pv nth ob).1 = .ok ()) :
    (save_wavefunctionWS o mol px pv nth ob).2.outExists = true := by
  revert h
  unfold save_wavefunctionWS
  dsimp only
  split
  · intro h
    simp at h
  · split
    · intro h
      simp at h
    · split
      · intro h
        simp at h
      · split
        · intro h
          simp at h
        · split
          · intro h
            simp at h
          · split
            · intro _
              rfl
            · intro h
              simp at h

set_option maxRecDepth 8192 in
/-- Claim C2, counterexample: the temporary wavefunction file can survive a
`mol2energy` call, in two ways.  When stage-2 fails (`oracleStdaFail`: `stda`
exits 1), line 159's `remove(temp_file_name)` is never reached — there is no
`try/finally` around stage-2.  And when stage-1 itself raises after its
`replace` (`oracleStray`: `xtb4stda` exits 0 but leaves a non-allow-listed
file, so stage-1's `rmdir` raises), the artifact was already moved to the
temporary path on line 62 and is likewise left behind. -/
theorem temp_artifact_counterexample :
    (mol2energyTempWS oracleStdaFail () "px" "pv" none false).2 = true ∧
    (mol2energyTempWS oracleStray () "px" "pv" none false).2 = true := by
  constructor <;> decide

/-- Claim C2, amended: after a `mol2energy` call the temporary wavefunction
artifact still exists exactly when it was created — stage-1's `replace`
(line 62) ran, which is what `outExists` of the stage-1 post-state records —
and the call then failed before reaching line 159's `remove`: either stage-1
raised during its own post-`replace` cleanup, or stage-1 returned normally
and stage-2 raised.  Equivalently, the artifact is gone iff stage-1 raised
before creating it, or both stages returned normally — the removal precedes
parsing, so a parse failure never leaks it.  No cleanup runs on failure, so
a failed pipeline's own error always propagates unmasked. -/
theorem temp_artifact_amended {Mol : Type} (o : Oracle Mol) (mol : Mol)
    (px pv : String) (nth : Option ℕ) (t : Bool) :
    (mol2energyTempWS o mol px pv nth t).2 = true ↔
      ((save_wavefunctionWS o mol px pv nth false).2.outExists = true ∧
        ¬((save_wavefunctionWS o mol px pv nth false).1 = .ok () ∧
          ∃ s, (wavefunction_stdaWS o (o.xtbWfn mol px pv (envOf nth))
              false t none).1 = .ok s)) := by
  rcases h1 : save_wavefunctionWS o mol px pv nth false with ⟨r1, st1⟩
  rcases r1 with e | ⟨⟩
  · simp [mol2energyTempWS, h1]
  · have hout : st1.outExists = true := by
      have h1' : (save_wavefunctionWS o mol px pv nth false).2.outExists = true :=
        save_wavefunctionWS_ok_out o mol px pv nth false (by rw [h1])
      rw [h1] at h1'
      exact h1'
    rcases h2 : wavefunction_stdaWS o (o.xtbWfn mol px pv (envOf nth)) false t none
      with ⟨r2, st2⟩
    rcases r2 with e2 | s0
    · simp [mol2energyTempWS, h1, h2, hout]
    · simp [mol2energyTempWS, h1, h2, hout]

/-! ## Thread-count pinning (claim C3) -/

/-- Claim C3, counterexample: in a batch of one molecule on an oracle where
stage-1 succeeds, the trace contains a stage-2 invocation whose environment
override is empty — `mol2energy` (line 158) calls `wavefunction_stda` with
`triplet` only, leaving its `nthreads` at the default `None`, so the two
thread-count variables are NOT overridden for the stage-2 child process. -/
theorem thread_pin_counterexample :
    ¬ ∀ ev ∈ mols2energyTrace oracleOk [()] "px" "pv" false,
      ev.env = envOf (some 1) := by
  decide

/-- Claim C3, amended: in every batch, every stage-1 invocation runs with
both thread-count variables overridden to `"1"`, while every stage-2
invocation runs with neither overridden (the ambient environment is
inherited unchanged). -/
theorem thread_pin_amended {Mol : Type} (o : Oracle Mol) (mols : List Mol)
    (px pv : String) (t : Bool) (ev : ToolEv)
    (hev : ev ∈ mols2energyTrace o mols px pv t) :
    (∀ e, ev = .xtbCall e → e = envOf (some 1)) ∧
    (∀ e, ev = .stdaCall e → e = envOf none) := by
  unfold mols2energyTrace at hev
  rw [List.mem_flatten] at hev
  obtain ⟨tr, htr, hev⟩ := hev
  rw [List.mem_map] at htr
  obtain ⟨m, _, rfl⟩ := htr
  unfold mol2energyTrace at hev
  have hcases : ev = .xtbCall (envOf (some 1)) ∨ ev = .stdaCall (envOf none) := by
    rcases hsw : save_wavefunction o m px pv (some 1) with e | w
    · rw [hsw] at hev
      exact Or.inl (by simpa using hev)
    · rw [hsw] at hev
      simpa using hev
  rcases hcases with rfl | rfl
  · refine ⟨fun e he => ?_, fun e he => ?_⟩
    · injection he with h
      exact h.symm
    · cases he
  · refine ⟨fun e he => ?_, fun e he => ?_⟩
    · cases he
    · injection he with h
      exact h.symm

/-- Witness for C3's amended claim: the stage-2 event of a concrete batch,
whose override is indeed empty. -/
theorem thread_pin_amended_witness :
    (ToolEv.stdaCall (envOf none) ∈ mols2energyTrace oracleOk [()] "px" "pv" false) ∧
    ((∀ e, ToolEv.stdaCall (envOf none) = ToolEv.xtbCall e → e = envOf (some 1)) ∧
     (∀ e, ToolEv.stdaCall (envOf none) = ToolEv.stdaCall e → e = envOf none)) :=
  ⟨by decide,
    thread_pin_amended oracleOk [()] "px" "pv" false (ToolEv.stdaCall (envOf none)) (by decide)⟩

/-! ## Workspace lemmas and claims -/

theorem mem_addFile {a f : String} {ws : List String} :
    a ∈ addFile f ws ↔ a = f ∨ a ∈ ws := by
  unfold addFile
  split
  next h => exact ⟨Or.inr, fun h' => h'.elim (fun e => e ▸ h) id⟩
  next => exact List.mem_cons

theorem mem_addFiles {a : String} {fs ws : List String} :
    a ∈ addFiles fs ws ↔ a ∈ fs ∨ a ∈ ws := by
  induction fs generalizing ws with
  | nil => simp [addFiles]
  | cons f fs ih =>
    show a ∈ addFiles fs (addFile f ws) ↔ _
    rw [ih, mem_addFile, List.mem_cons]
    tauto

theorem mem_cleanupLoop {a : String} (names : List String) {ws : List String}
    (ha : a ∈ ws) (hn : a ∉ names) : a ∈ cleanupLoop names ws := by
  induction names generalizing ws with
  | nil => simpa [cleanupLoop] using ha
  | cons f fs ih =>
    have haf : a ≠ f := fun h => hn (h ▸ List.mem_cons_self _ _)
    have hn' : a ∉ fs := fun h => hn (List.mem_cons_of_mem _ h)
    show a ∈ cleanupLoop fs (if f ∈ ws then ws.erase f else ws)
    refine ih ?_ hn'
    split
    · exact (List.mem_erase_of_ne haf).mpr ha
    · exact ha

theorem removeFile_ok_mem {f : String} {ws ws' : List String}
    (h : removeFile f ws = .ok ws') {a : String} (haf : a ≠ f) (ha : a ∈ ws) :
    a ∈ ws' := by
  unfold removeFile at h
  split at h
  · injection h with h
    subst h
    exact (List.mem_erase_of_ne haf).mpr ha
  · cases h

/-- Claim C8: after a successful stage-1 run the artifact exists at
`outpath` — whatever was there before — and the workspace directory is gone;
when the tool leaves a file on no allow-list, the run does not silently
succeed: it fails and the directory is still there (the `rmdir` raised);
and after a successful stage-2 run, its workspace directory is gone too. -/
theorem cleanup_completeness {Mol : Type} (o : Oracle Mol) (mol : Mol)
    (px pv : String) (nth : Option ℕ) (outBefore : Bool)
    (wfn : String) (datPath triplet : Bool) (nth2 : Option ℕ) :
    ((save_wavefunctionWS o mol px pv nth outBefore).1 = .ok () →
      (save_wavefunctionWS o mol px pv nth outBefore).2.outExists = true ∧
      (save_wavefunctionWS o mol px pv nth outBefore).2.wsExists = false) ∧
    (∀ f, f ∈ o.xtbFiles mol px pv (envOf nth) → f ∉ possible_files_xtb →
      f ≠ "wfn.xtb" → f ≠ "mol.xyz" → f ≠ "param_x.xtb" → f ≠ "param_v.xtb" →
      (save_wavefunctionWS o mol px pv nth outBefore).1 ≠ .ok () ∧
      (save_wavefunctionWS o mol px pv nth outBefore).2.wsExists = true) ∧
    (∀ s, (wavefunction_stdaWS o wfn datPath triplet nth2).1 = .ok s →
      (wavefunction_stdaWS o wfn datPath triplet nth2).2.wsExists = false) := by
  refine ⟨?_, ?_, ?_⟩
  · unfold save_wavefunctionWS
    dsimp only
    split
    · intro h
      simp at h
    · split
      · intro h
        simp at h
      · split
        · intro h
          simp at h
        · split
          · intro h
            simp at h
          · split
            · intro h
              simp at h
            · split
              · intro _
                exact ⟨rfl, rfl⟩
              · intro h
                simp at h
  · intro f hf hallow h1 h2 h3 h4
    unfold save_wavefunctionWS
    dsimp only
    split
    · exact ⟨by simp, rfl⟩
    · have hf1 : f ∈ addFiles (o.xtbFiles mol px pv (envOf nth))
          (addFile "wfn.xtb" (addFiles ["param_x.xtb", "param_v.xtb", "mol.xyz"] [])) :=
        mem_addFiles.mpr (Or.inl hf)
      split
      · exact ⟨by simp, rfl⟩
      next ws2 hE1 =>
        have hf2 : f ∈ ws2 := removeFile_ok_mem hE1 h1 hf1
        have hf3 : f ∈ cleanupLoop possible_files_xtb ws2 :=
          mem_cleanupLoop _ hf2 hallow
        split
        · exact ⟨by simp, rfl⟩
        next ws4 hE2 =>
          have hf4 : f ∈ ws4 := removeFile_ok_mem hE2 h2 hf3
          split
          · exact ⟨by simp, rfl⟩
          next ws5 hE3 =>
            have hf5 : f ∈ ws5 := removeFile_ok_mem hE3 h3 hf4
            split
            · exact ⟨by simp, rfl⟩
            next ws6 hE4 =>
              have hf6 : f ∈ ws6 := removeFile_ok_mem hE4 h4 hf5
              split
              next h6 =>
                rw [h6] at hf6
                exact absurd hf6 (List.not_mem_nil f)
              next => exact ⟨by simp, rfl⟩
  · intro s
    unfold wavefunction_stdaWS
    dsimp only
    split
    · intro h
      simp at h
    · split
      · intro h
        simp at h
      · split
        · intro h
          simp at h
        · split
          · intro _
            rfl
          · intro h
            simp at h

set_option maxRecDepth 8192 in
/-- Witness for C8: on `oracleOk` (which creates only allow-listed files)
both runners succeed, the artifact is present at `outpath`, and both
workspaces are gone; on `oracleStray` (which leaves `stray.out`) stage-1
does not succeed silently. -/
theorem cleanup_completeness_witness :
    ((save_wavefunctionWS oracleOk () "px" "pv" (some 1) true).1 = .ok () ∧
      (save_wavefunctionWS oracleOk () "px" "pv" (some 1) true).2.outExists = true ∧
      (save_wavefunctionWS oracleOk () "px" "pv" (some 1) true).2.wsExists = false) ∧
    ("stray.out" ∈ oracleStray.xtbFiles () "px" "pv" (envOf none) ∧
      (save_wavefunctionWS oracleStray () "px" "pv" none false).1 ≠ .ok () ∧
      (save_wavefunctionWS oracleStray () "px" "pv" none false).2.wsExists = true) ∧
    ((wavefunction_stdaWS oracleOk "WFNDATA" true false none).1 = .ok reportSpec ∧
      (wavefunction_stdaWS oracleOk "WFNDATA" true false none).2.wsExists = false) := by
  have hok : (save_wavefunctionWS oracleOk () "px" "pv" (some 1) true).1 = .ok () := rfl
  have hstda : (wavefunction_stdaWS oracleOk "WFNDATA" true false none).1
      = .ok reportSpec := rfl
  refine ⟨⟨hok, (cleanup_completeness oracleOk () "px" "pv" (some 1) true
      "WFNDATA" true false none).1 hok⟩, ⟨by decide, ?_⟩, hstda,
    (cleanup_completeness oracleOk () "px" "pv" (some 1) true
      "WFNDATA" true false none).2.2 reportSpec hstda⟩
  exact (cleanup_completeness oracleStray () "px" "pv" none false
      "" false false none).2.1 "stray.out" (by decide) (by decide)
      (by decide) (by decide) (by decide) (by decide)

/-! ## External-tool failure propagation (claim C9) -/

/-- Claim C9, counterexample: when stage-1's binary exits non-zero, the
raised `CalledProcessError` does NOT carry the tool's stderr text — the
stage-1 `run` call (line 57) is made without `capture_output`, so the
exception's `stderr` attribute is `None` even though the tool wrote
"boom" to its stderr stream. -/
theorem tool_error_counterexample :
    ¬ ∃ e : CalledProcessErr,
      save_wavefunction oracleXtbFail () "px" "pv" none = .error e ∧
      e.stderr = some ((oracleXtbFail.xtbRun () "px" "pv" (envOf none)).stderrText) := by
  rintro ⟨e, h1, h2⟩
  have h0 : save_wavefunction oracleXtbFail () "px" "pv" none
      = .error ⟨1, none⟩ := rfl
  rw [h0] at h1
  injection h1 with h1
  rw [← h1] at h2
  simp at h2

/-- Claim C9, amended: a non-zero exit of either external binary always
raises a `CalledProcessError` carrying the exit code — never swallowed, no
value returned; the stage-2 error additionally carries the captured stderr
text, while the stage-1 error's `stderr` attribute is `None` because that
`run` call does not capture output. -/
theorem tool_error_amended {Mol : Type} (o : Oracle Mol) (mol : Mol)
    (px pv : String) (nth : Option ℕ) (wfn : String) (t : Bool)
    (nth2 : Option ℕ) :
    ((o.xtbRun mol px pv (envOf nth)).exitCode ≠ 0 →
      save_wavefunction o mol px pv nth
        = .error ⟨(o.xtbRun mol px pv (envOf nth)).exitCode, none⟩) ∧
    ((o.stdaRun wfn (stdaFlags t) (envOf nth2)).exitCode ≠ 0 →
      wavefunction_stda o wfn t nth2
        = .error ⟨(o.stdaRun wfn (stdaFlags t) (envOf nth2)).exitCode,
            some (o.stdaRun wfn (stdaFlags t) (envOf nth2)).stderrText⟩) := by
  constructor
  · intro h
    simp [save_wavefunction, h]
  · intro h
    simp [wavefunction_stda, h]

/-- Witness for C9's amended claim: concrete failing runs of each stage. -/
theorem tool_error_amended_witness :
    ((oracleXtbFail.xtbRun () "px" "pv" (envOf none)).exitCode ≠ 0 ∧
      save_wavefunction oracleXtbFail () "px" "pv" none
        = .error ⟨(oracleXtbFail.xtbRun () "px" "pv" (envOf none)).exitCode, none⟩) ∧
    ((oracleStdaFail.stdaRun "w" (stdaFlags false) (envOf none)).exitCode ≠ 0 ∧
      wavefunction_stda oracleStdaFail "w" false none
        = .error ⟨(oracleStdaFail.stdaRun "w" (stdaFlags false) (envOf none)).exitCode,
            some (oracleStdaFail.stdaRun "w" (stdaFlags false) (envOf none)).stderrText⟩) :=
  ⟨⟨by decide, (tool_error_amended oracleXtbFail () "px" "pv" none "w" false none).1
      (by decide)⟩,
   ⟨by decide, (tool_error_amended oracleStdaFail () "px" "pv" none "w" false none).2
      (by decide)⟩⟩

end XtbStda
